import Mathlib

/-!
Shallow embedding of the core of the Cursive terminal-UI repository:
the canonical event model (src/event.rs), the two backend translation
layers (src/backend/curses/n.rs and src/backend/termion.rs) and the
compositor / decoration views (src/views/stack_view.rs and
src/views/shadow_view.rs).

Helper modules of the repository that are not shipped under src/
(vec.rs, direction.rs, view/position.rs, utf8.rs and the external
ncurses / termion crate constants) are modelled from the spec; every
such definition carries a doc comment starting with
`Modelled from the spec:`.
-/

namespace Cursive

/-- Modelled from the spec: vec.rs is not under src/. A 2D vector of
character-cell coordinates (usize in the source, here `Nat`). -/
structure Vec2 where
  x : Nat
  y : Nat
deriving DecidableEq, Repr

namespace Vec2

/-- Modelled from the spec: `Vec2::new`. -/
def new (x y : Nat) : Vec2 := ⟨x, y⟩

/-- Modelled from the spec: `Vec2::zero`, the origin. -/
def zero : Vec2 := ⟨0, 0⟩

/-- Modelled from the spec: componentwise addition of vectors. -/
instance : Add Vec2 := ⟨fun a b => ⟨a.x + b.x, a.y + b.y⟩⟩

/-- Modelled from the spec: componentwise subtraction. In the source it
is usize subtraction, only ever used behind a `fits_in` / clamping
guard that makes it exact; truncated `Nat` subtraction agrees there. -/
instance : Sub Vec2 := ⟨fun a b => ⟨a.x - b.x, a.y - b.y⟩⟩

/-- Modelled from the spec: `a.fits_in b` holds when `a` is
componentwise at most `b` (spec section 8: the position is at or past
the top-left corner on both axes). -/
def fits_in (a b : Vec2) : Bool := a.x ≤ b.x && a.y ≤ b.y

/-- Modelled from the spec: the strict componentwise comparison used as
`pos < top_left + size` (spec section 8: strictly inside on both axes). -/
def lt (a b : Vec2) : Bool := a.x < b.x && a.y < b.y

/-- Modelled from the spec: componentwise minimum, `Vec2::min`. -/
def min (a b : Vec2) : Vec2 := ⟨Nat.min a.x b.x, Nat.min a.y b.y⟩

/-- Modelled from the spec: componentwise maximum, `Vec2::max`. -/
def max (a b : Vec2) : Vec2 := ⟨Nat.max a.x b.x, Nat.max a.y b.y⟩

/-- Modelled from the spec: `Vec2::or_min` clamps `self` so it never
exceeds `other` on either axis (spec section 4.3: the reserved margin
is clamped so the reservation never exceeds the available size). -/
def or_min (a b : Vec2) : Vec2 := min a b

theorem or_min_le_right (a b : Vec2) :
    (a.or_min b).x ≤ b.x ∧ (a.or_min b).y ≤ b.y :=
  ⟨Nat.min_le_right _ _, Nat.min_le_right _ _⟩

end Vec2

/-- A button on the mouse (src/event.rs `MouseButton`). -/
inductive MouseButton where
  | Left
  | Right
  | Middle
deriving DecidableEq, Repr

/-- A type of mouse event (src/event.rs `MouseEvent`). -/
inductive MouseEvent where
  | Press (b : MouseButton)
  | Release (b : MouseButton)
  | WheelUp
  | WheelDown
deriving DecidableEq, Repr

/-- A non-character key on the keyboard (src/event.rs `Key`). -/
inductive Key where
  | Enter | Tab | Backspace | Esc
  | Left | Right | Up | Down
  | Ins | Del | Home | End | PageUp | PageDown
  | PauseBreak | NumpadCenter
  | F0 | F1 | F2 | F3 | F4 | F5 | F6 | F7 | F8 | F9 | F10 | F11 | F12
deriving DecidableEq, Repr

namespace Key

/-- Source `Key::from_f` (src/event.rs): the function key for a number.
The source panics for `n > 12`; panics are embedded as `none`. -/
def from_f (n : Nat) : Option Key :=
  match n with
  | 0 => some F0
  | 1 => some F1
  | 2 => some F2
  | 3 => some F3
  | 4 => some F4
  | 5 => some F5
  | 6 => some F6
  | 7 => some F7
  | 8 => some F8
  | 9 => some F9
  | 10 => some F10
  | 11 => some F11
  | 12 => some F12
  | _ => none

end Key

/-- An event as seen by the application (src/event.rs `Event`).
`Unknown` carries raw bytes, here as a list of byte values. -/
inductive Event where
  | WindowResize
  | Refresh
  | Char (c : Char)
  | CtrlChar (c : Char)
  | AltChar (c : Char)
  | Mouse (pos : Vec2) (event : MouseEvent)
  | CtrlMouse (pos : Vec2) (event : MouseEvent)
  | AltMouse (pos : Vec2) (event : MouseEvent)
  | ShiftMouse (pos : Vec2) (event : MouseEvent)
  | CtrlAltMouse (pos : Vec2) (event : MouseEvent)
  | CtrlShiftMouse (pos : Vec2) (event : MouseEvent)
  | AltShiftMouse (pos : Vec2) (event : MouseEvent)
  | Key (k : Key)
  | Shift (k : Key)
  | Alt (k : Key)
  | AltShift (k : Key)
  | Ctrl (k : Key)
  | CtrlShift (k : Key)
  | CtrlAlt (k : Key)
  | Unknown (bytes : List Nat)
  | Exit
deriving DecidableEq, Repr

namespace Event

/-- Source `Event::mouse_position` (src/event.rs lines 309-319). The match in
the source lists exactly six mouse variants; `AltShiftMouse` is absent
from it and therefore falls to the `_ => None` arm. -/
def mouse_position : Event → Option Vec2
  | Mouse pos _ => some pos
  | CtrlMouse pos _ => some pos
  | ShiftMouse pos _ => some pos
  | AltMouse pos _ => some pos
  | CtrlShiftMouse pos _ => some pos
  | CtrlAltMouse pos _ => some pos
  | _ => none

/-- Source `Event::relativize` (src/event.rs lines 327-339): subtract
`top_left` from the position of the same six mouse variants; every
other event (including `AltShiftMouse`) is left unchanged. -/
def relativize (e : Event) (top_left : Vec2) : Event :=
  match e with
  | Mouse pos ev => Mouse (pos - top_left) ev
  | CtrlMouse pos ev => CtrlMouse (pos - top_left) ev
  | ShiftMouse pos ev => ShiftMouse (pos - top_left) ev
  | AltMouse pos ev => AltMouse (pos - top_left) ev
  | CtrlShiftMouse pos ev => CtrlShiftMouse (pos - top_left) ev
  | CtrlAltMouse pos ev => CtrlAltMouse (pos - top_left) ev
  | e => e

/-- Source `Event::make_relative` (src/event.rs lines 347-369): keep the event
when its mouse position fits in the viewport, shifted by `top_left`;
events without a mouse position pass through unchanged. -/
def make_relative (e : Event) (top_left : Vec2) (size : Option Vec2) :
    Option Event :=
  match e.mouse_position with
  | none => some e
  | some pos =>
    if !(top_left.fits_in pos) then
      none
    else if (size.map (fun s => !(pos.lt (top_left + s)))).getD false then
      none
    else
      some (e.relativize top_left)

end Event

/-! ### Polling (ncurses) backend, src/backend/curses/n.rs

The numeric constants below are the values of the external ncurses
crate's `KEY_*` and `BUTTON*` constants (curses ABI); they are not code
of this repository and are recorded here by value. -/

namespace NC

/-- Modelled from the spec: ncurses `KEY_ENTER` (external crate constant). -/
def KEY_ENTER : Int := 343
/-- Modelled from the spec: ncurses `KEY_BACKSPACE`. -/
def KEY_BACKSPACE : Int := 263
/-- Modelled from the spec: ncurses `KEY_MOUSE`. -/
def KEY_MOUSE : Int := 409
/-- Modelled from the spec: ncurses `KEY_B2` (center of keypad). -/
def KEY_B2 : Int := 350
/-- Modelled from the spec: ncurses `KEY_DC` (delete character). -/
def KEY_DC : Int := 330
/-- Modelled from the spec: ncurses `KEY_IC` (insert character). -/
def KEY_IC : Int := 331
/-- Modelled from the spec: ncurses `KEY_BTAB` (back tab). -/
def KEY_BTAB : Int := 353
/-- Modelled from the spec: ncurses `KEY_SLEFT`. -/
def KEY_SLEFT : Int := 393
/-- Modelled from the spec: ncurses `KEY_SRIGHT`. -/
def KEY_SRIGHT : Int := 402
/-- Modelled from the spec: ncurses `KEY_LEFT`. -/
def KEY_LEFT : Int := 260
/-- Modelled from the spec: ncurses `KEY_RIGHT`. -/
def KEY_RIGHT : Int := 261
/-- Modelled from the spec: ncurses `KEY_UP`. -/
def KEY_UP : Int := 259
/-- Modelled from the spec: ncurses `KEY_DOWN`. -/
def KEY_DOWN : Int := 258
/-- Modelled from the spec: ncurses `KEY_SR` (shifted scroll up). -/
def KEY_SR : Int := 337
/-- Modelled from the spec: ncurses `KEY_SF` (shifted scroll down). -/
def KEY_SF : Int := 336
/-- Modelled from the spec: ncurses `KEY_PPAGE`. -/
def KEY_PPAGE : Int := 339
/-- Modelled from the spec: ncurses `KEY_NPAGE`. -/
def KEY_NPAGE : Int := 338
/-- Modelled from the spec: ncurses `KEY_HOME`. -/
def KEY_HOME : Int := 262
/-- Modelled from the spec: ncurses `KEY_END`. -/
def KEY_END : Int := 360
/-- Modelled from the spec: ncurses `KEY_SHOME`. -/
def KEY_SHOME : Int := 391
/-- Modelled from the spec: ncurses `KEY_SEND`. -/
def KEY_SEND : Int := 386
/-- Modelled from the spec: ncurses `KEY_SDC`. -/
def KEY_SDC : Int := 383
/-- Modelled from the spec: ncurses `KEY_SNEXT`. -/
def KEY_SNEXT : Int := 396
/-- Modelled from the spec: ncurses `KEY_SPREVIOUS`. -/
def KEY_SPREVIOUS : Int := 398
/-- Modelled from the spec: ncurses `KEY_F0`; function key `F(n)` is
`KEY_F0 + n`, so `KEY_F1 = 265` and `KEY_F12 = 276`. -/
def KEY_F0 : Int := 264

/-- Source `get_bytes` (src/backend/curses/n.rs lines 346-348): the four
little-endian bytes of the i32 code (two's complement). -/
def get_bytes (b : Int) : List Nat :=
  let u : Nat := (b % (2 ^ 32 : Int)).toNat
  [u % 256, u / 256 % 256, u / 65536 % 256, u / 16777216 % 256]

/-- Source `Concrete::parse_ncurses_char` (src/backend/curses/n.rs lines
123-289), restricted to every arm except the `409` mouse-report arm
(which reads driver state and is embedded in `parse_ncurses_char`
below). The arms are translated in source order, so the earlier `9`,
`10 | 13 | KEY_ENTER` arms shadow the later `1...25` range. A panic
inside `Key::from_f` would surface as `none`. -/
def parse_ncurses_key (ch : Int) : Option Event :=
  if ch = -1 then some .Refresh
  else if ch = 9 then some (.Key .Tab)
  else if ch = 10 ∨ ch = 13 ∨ ch = KEY_ENTER then some (.Key .Enter)
  else if ch = 27 then some (.Key .Esc)
  else if ch = 127 ∨ ch = KEY_BACKSPACE then some (.Key .Backspace)
  else if ch = 410 then some .WindowResize
  else if ch = 519 then some (.Alt .Del)
  else if ch = 520 then some (.AltShift .Del)
  else if ch = 521 then some (.Ctrl .Del)
  else if ch = 522 then some (.CtrlShift .Del)
  else if ch = 525 then some (.Alt .Down)
  else if ch = 526 then some (.AltShift .Down)
  else if ch = 527 then some (.Ctrl .Down)
  else if ch = 528 then some (.CtrlShift .Down)
  else if ch = 529 then some (.CtrlAlt .Down)
  else if ch = 530 then some (.Alt .End)
  else if ch = 531 then some (.AltShift .End)
  else if ch = 532 then some (.Ctrl .End)
  else if ch = 533 then some (.CtrlShift .End)
  else if ch = 534 then some (.CtrlAlt .End)
  else if ch = 535 then some (.Alt .Home)
  else if ch = 536 then some (.AltShift .Home)
  else if ch = 537 then some (.Ctrl .Home)
  else if ch = 538 then some (.CtrlShift .Home)
  else if ch = 539 then some (.CtrlAlt .Home)
  else if ch = 540 then some (.Alt .Ins)
  else if ch = 542 then some (.Ctrl .Ins)
  else if ch = 544 then some (.CtrlAlt .Ins)
  else if ch = 545 then some (.Alt .Left)
  else if ch = 546 then some (.AltShift .Left)
  else if ch = 547 then some (.Ctrl .Left)
  else if ch = 548 then some (.CtrlShift .Left)
  else if ch = 549 then some (.CtrlAlt .Left)
  else if ch = 550 then some (.Alt .PageDown)
  else if ch = 551 then some (.AltShift .PageDown)
  else if ch = 552 then some (.Ctrl .PageDown)
  else if ch = 553 then some (.CtrlShift .PageDown)
  else if ch = 554 then some (.CtrlAlt .PageDown)
  else if ch = 555 then some (.Alt .PageUp)
  else if ch = 556 then some (.AltShift .PageUp)
  else if ch = 557 then some (.Ctrl .PageUp)
  else if ch = 558 then some (.CtrlShift .PageUp)
  else if ch = 559 then some (.CtrlAlt .PageUp)
  else if ch = 560 then some (.Alt .Right)
  else if ch = 561 then some (.AltShift .Right)
  else if ch = 562 then some (.Ctrl .Right)
  else if ch = 563 then some (.CtrlShift .Right)
  else if ch = 564 then some (.CtrlAlt .Right)
  else if ch = 566 then some (.Alt .Up)
  else if ch = 567 then some (.AltShift .Up)
  else if ch = 568 then some (.Ctrl .Up)
  else if ch = 569 then some (.CtrlShift .Up)
  else if ch = 570 then some (.CtrlAlt .Up)
  else if ch = KEY_B2 then some (.Key .NumpadCenter)
  else if ch = KEY_DC then some (.Key .Del)
  else if ch = KEY_IC then some (.Key .Ins)
  else if ch = KEY_BTAB then some (.Shift .Tab)
  else if ch = KEY_SLEFT then some (.Shift .Left)
  else if ch = KEY_SRIGHT then some (.Shift .Right)
  else if ch = KEY_LEFT then some (.Key .Left)
  else if ch = KEY_RIGHT then some (.Key .Right)
  else if ch = KEY_UP then some (.Key .Up)
  else if ch = KEY_DOWN then some (.Key .Down)
  else if ch = KEY_SR then some (.Shift .Up)
  else if ch = KEY_SF then some (.Shift .Down)
  else if ch = KEY_PPAGE then some (.Key .PageUp)
  else if ch = KEY_NPAGE then some (.Key .PageDown)
  else if ch = KEY_HOME then some (.Key .Home)
  else if ch = KEY_END then some (.Key .End)
  else if ch = KEY_SHOME then some (.Shift .Home)
  else if ch = KEY_SEND then some (.Shift .End)
  else if ch = KEY_SDC then some (.Shift .Del)
  else if ch = KEY_SNEXT then some (.Shift .PageDown)
  else if ch = KEY_SPREVIOUS then some (.Shift .PageUp)
  else if KEY_F0 + 1 ≤ ch ∧ ch ≤ KEY_F0 + 12 then
    (Key.from_f (ch - KEY_F0).toNat).map .Key
  else if 277 ≤ ch ∧ ch ≤ 288 then (Key.from_f (ch - 276).toNat).map .Shift
  else if 289 ≤ ch ∧ ch ≤ 300 then (Key.from_f (ch - 288).toNat).map .Ctrl
  else if 301 ≤ ch ∧ ch ≤ 312 then
    (Key.from_f (ch - 300).toNat).map .CtrlShift
  else if 313 ≤ ch ∧ ch ≤ 324 then (Key.from_f (ch - 312).toNat).map .Alt
  else if 1 ≤ ch ∧ ch ≤ 25 then
    some (.CtrlChar (Char.ofNat (97 + (ch - 1).toNat)))
  else some (.Unknown (get_bytes ch))

/-- Modelled from the spec: ncurses `BUTTON1_RELEASED` (mouse mask,
curses mouse interface: bit 1 of the first button's group). -/
def BUTTON1_RELEASED : Nat := 1
/-- Modelled from the spec: ncurses `BUTTON1_PRESSED`. -/
def BUTTON1_PRESSED : Nat := 2
/-- Modelled from the spec: ncurses `BUTTON1_CLICKED`. -/
def BUTTON1_CLICKED : Nat := 4
/-- Modelled from the spec: ncurses `BUTTON1_DOUBLE_CLICKED`. -/
def BUTTON1_DOUBLE_CLICKED : Nat := 8
/-- Modelled from the spec: ncurses `BUTTON1_TRIPLE_CLICKED`. -/
def BUTTON1_TRIPLE_CLICKED : Nat := 16
/-- Modelled from the spec: ncurses `BUTTON2_RELEASED`. -/
def BUTTON2_RELEASED : Nat := 32
/-- Modelled from the spec: ncurses `BUTTON2_PRESSED`. -/
def BUTTON2_PRESSED : Nat := 64
/-- Modelled from the spec: ncurses `BUTTON2_CLICKED`. -/
def BUTTON2_CLICKED : Nat := 128
/-- Modelled from the spec: ncurses `BUTTON2_DOUBLE_CLICKED`. -/
def BUTTON2_DOUBLE_CLICKED : Nat := 256
/-- Modelled from the spec: ncurses `BUTTON2_TRIPLE_CLICKED`. -/
def BUTTON2_TRIPLE_CLICKED : Nat := 512
/-- Modelled from the spec: ncurses `BUTTON3_RELEASED`. -/
def BUTTON3_RELEASED : Nat := 1024
/-- Modelled from the spec: ncurses `BUTTON3_PRESSED`. -/
def BUTTON3_PRESSED : Nat := 2048
/-- Modelled from the spec: ncurses `BUTTON3_CLICKED`. -/
def BUTTON3_CLICKED : Nat := 4096
/-- Modelled from the spec: ncurses `BUTTON3_DOUBLE_CLICKED`. -/
def BUTTON3_DOUBLE_CLICKED : Nat := 8192
/-- Modelled from the spec: ncurses `BUTTON3_TRIPLE_CLICKED`. -/
def BUTTON3_TRIPLE_CLICKED : Nat := 16384
/-- Modelled from the spec: ncurses `BUTTON4_PRESSED` (wheel up). -/
def BUTTON4_PRESSED : Nat := 65536
/-- Modelled from the spec: ncurses `BUTTON5_PRESSED` (wheel down). -/
def BUTTON5_PRESSED : Nat := 2097152
/-- Modelled from the spec: ncurses `BUTTON_CTRL` modifier bit. -/
def BUTTON_CTRL : Nat := 33554432
/-- Modelled from the spec: ncurses `BUTTON_SHIFT` modifier bit. -/
def BUTTON_SHIFT : Nat := 67108864
/-- Modelled from the spec: ncurses `BUTTON_ALT` modifier bit. -/
def BUTTON_ALT : Nat := 134217728

/-- Source `Concrete::parse_mouse_button` (src/backend/curses/n.rs lines
292-342). The state is the backend's `event_queue`; a "clicked" (or
double/triple-clicked) button state pushes the synthesized `Release`
onto the back of the queue and returns the `Press`. Panics
(`button.unwrap()` on an unmatched state, `unreachable!` inside the
wrapper) are embedded as `none`. -/
def parse_mouse_button (q : List Event) (bstate : Nat)
    (wrapper : MouseEvent → Option Event) : Option (List Event × Event) :=
  let button : Option MouseButton :=
    if bstate = BUTTON1_RELEASED ∨ bstate = BUTTON1_PRESSED ∨
        bstate = BUTTON1_CLICKED ∨ bstate = BUTTON1_DOUBLE_CLICKED ∨
        bstate = BUTTON1_TRIPLE_CLICKED then some .Left
    else if bstate = BUTTON2_RELEASED ∨ bstate = BUTTON2_PRESSED ∨
        bstate = BUTTON2_CLICKED ∨ bstate = BUTTON2_DOUBLE_CLICKED ∨
        bstate = BUTTON2_TRIPLE_CLICKED then some .Middle
    else if bstate = BUTTON3_RELEASED ∨ bstate = BUTTON3_PRESSED ∨
        bstate = BUTTON3_CLICKED ∨ bstate = BUTTON3_DOUBLE_CLICKED ∨
        bstate = BUTTON3_TRIPLE_CLICKED then some .Right
    else none
  if bstate = BUTTON1_RELEASED ∨ bstate = BUTTON2_RELEASED ∨
      bstate = BUTTON3_RELEASED then do
    let b ← button
    let e ← wrapper (.Release b)
    some (q, e)
  else if bstate = BUTTON1_PRESSED ∨ bstate = BUTTON2_PRESSED ∨
      bstate = BUTTON3_PRESSED then do
    let b ← button
    let e ← wrapper (.Press b)
    some (q, e)
  else if bstate = BUTTON1_CLICKED ∨ bstate = BUTTON2_CLICKED ∨
      bstate = BUTTON3_CLICKED ∨ bstate = BUTTON1_DOUBLE_CLICKED ∨
      bstate = BUTTON2_DOUBLE_CLICKED ∨ bstate = BUTTON3_DOUBLE_CLICKED ∨
      bstate = BUTTON1_TRIPLE_CLICKED ∨ bstate = BUTTON2_TRIPLE_CLICKED ∨
      bstate = BUTTON3_TRIPLE_CLICKED then do
    let b ← button
    let rel ← wrapper (.Release b)
    let prs ← wrapper (.Press b)
    some (q ++ [rel], prs)
  else if bstate = BUTTON4_PRESSED then do
    let e ← wrapper .WheelUp
    some (q, e)
  else if bstate = BUTTON5_PRESSED then do
    let e ← wrapper .WheelDown
    some (q, e)
  else some (q, .Unknown (get_bytes (bstate : Int)))

/-- Raw mouse-report details fetched by `ncurses::getmouse` when the
driver returns the `KEY_MOUSE` code: cursor cell and button-state
bitmask (`MEVENT`). -/
structure RawMouse where
  x : Nat
  y : Nat
  bstate : Nat
deriving DecidableEq, Repr

/-- Source `Concrete::parse_ncurses_char` (src/backend/curses/n.rs lines
123-289) over the queue state: the `409` (`KEY_MOUSE`) arm reads the
mouse report, masks the Ctrl/Alt/Shift bits out of the button state and
dispatches through `parse_mouse_button`; every other code is the pure
translation `parse_ncurses_key`, leaving the queue untouched. -/
def parse_ncurses_char (q : List Event) (ch : Int) (m : RawMouse) :
    Option (List Event × Event) :=
  if ch = KEY_MOUSE then
    let pos := Vec2.new m.x m.y
    let modifier_mask : Nat := BUTTON_ALT ||| BUTTON_SHIFT ||| BUTTON_CTRL
    let ctrl := m.bstate &&& BUTTON_CTRL ≠ 0
    let alt := m.bstate &&& BUTTON_ALT ≠ 0
    let shift := m.bstate &&& BUTTON_SHIFT ≠ 0
    let bstate := m.bstate &&& (4294967295 ^^^ modifier_mask)
    let wrapper : MouseEvent → Option Event := fun event =>
      if ctrl then
        if alt then
          if shift then none
          else some (.CtrlAltMouse pos event)
        else
          if shift then some (.CtrlShiftMouse pos event)
          else some (.CtrlMouse pos event)
      else
        if alt then
          if shift then some (.AltShiftMouse pos event)
          else some (.AltMouse pos event)
        else
          if shift then some (.ShiftMouse pos event)
          else some (.Mouse pos event)
    parse_mouse_button q bstate wrapper
  else
    (parse_ncurses_key ch).map (fun e => (q, e))

/-- Source `Concrete::poll_event` (src/backend/curses/n.rs lines
96-110): drain the front of the synthesized-event queue first;
otherwise fetch one raw code `ch` — a printable-range first byte goes
through the utf8 byte-continuation reader (`readChar`, modelled from
the spec: src/utf8.rs is not provided; it may fail, hence `Option`),
anything else through `parse_ncurses_char`. -/
def poll_event (q : List Event) (ch : Int) (m : RawMouse)
    (readChar : Int → Option Char) : Option (List Event × Event) :=
  match q with
  | e :: rest => some (rest, e)
  | [] =>
    if 32 ≤ ch ∧ ch ≤ 255 ∧ ch ≠ 127 then
      (readChar ch).map (fun c => ([], Event.Char c))
    else
      parse_ncurses_char [] ch m

/-- Source `Concrete::set_refresh_rate` (src/backend/curses/n.rs lines
112-118): the value handed to `ncurses::timeout` — `-1` (block
indefinitely) for `fps = 0`, else the period `1000 / fps` milliseconds. -/
def set_refresh_rate (fps : Nat) : Int :=
  if fps = 0 then -1 else (1000 / fps : Nat)

end NC

/-! ### Streamed (termion) backend, src/backend/termion.rs -/

namespace Termion

/-- Modelled from the spec: the external termion crate's decoded key
enumeration (`termion::event::Key`), restricted to the constructors the
translation matches on plus `Null` standing for the remaining ones that
fall to the catch-all arm. -/
inductive TKey where
  | Backspace | Left | Right | Up | Down
  | Home | End | PageUp | PageDown
  | Delete | Insert
  | F (n : Nat)
  | Char (c : Char)
  | Alt (c : Char)
  | Ctrl (c : Char)
  | Null
  | Esc
deriving DecidableEq, Repr

/-- Modelled from the spec: the external termion crate's decoded event
enumeration (`termion::event::Event`); the mouse payload is irrelevant
to the translation (it falls to the catch-all arm). -/
inductive TEvent where
  | Key (k : TKey)
  | Mouse
  | Unsupported (bytes : List Nat)
deriving DecidableEq, Repr

/-- Source `map_key` (src/backend/termion.rs lines 206-232), arms in
source order. The guard on the function-key arm is `i < 12`, so
`F(12)` falls through to the `Unknown(vec![j])` arm. A panic inside
`Key::from_f` would surface as `none`. -/
def map_key (event : TEvent) : Option Event :=
  match event with
  | .Unsupported bytes => some (.Unknown bytes)
  | .Key .Esc => some (.Key .Esc)
  | .Key .Backspace => some (.Key .Backspace)
  | .Key .Left => some (.Key .Left)
  | .Key .Right => some (.Key .Right)
  | .Key .Up => some (.Key .Up)
  | .Key .Down => some (.Key .Down)
  | .Key .Home => some (.Key .Home)
  | .Key .End => some (.Key .End)
  | .Key .PageUp => some (.Key .PageUp)
  | .Key .PageDown => some (.Key .PageDown)
  | .Key .Delete => some (.Key .Del)
  | .Key .Insert => some (.Key .Ins)
  | .Key (.F i) =>
    if i < 12 then (Key.from_f i).map .Key else some (.Unknown [i])
  | .Key (.Char '\n') => some (.Key .Enter)
  | .Key (.Char '\t') => some (.Key .Tab)
  | .Key (.Char c) => some (.Char c)
  | .Key (.Ctrl 'c') => some .Exit
  | .Key (.Ctrl c) => some (.CtrlChar c)
  | .Key (.Alt c) => some (.AltChar c)
  | _ => some (.Unknown [])

/-- Source `Concrete::set_refresh_rate` (src/backend/termion.rs lines
182-184): `self.timeout = Some(1000 / fps)` unconditionally. For
`fps = 0` the u32 division by zero panics (embedded as `none`); the
field is never reset to `None`. -/
def set_refresh_rate (fps : Nat) : Option (Option Nat) :=
  if fps = 0 then none else some (some (1000 / fps))

end Termion

/-! ### Event-routing vocabulary (src/event.rs) and views -/

/-- A callback attached to a consumed event (src/event.rs `Callback`).
It is an opaque reference-counted closure over the application root; no
claim invokes one, so callbacks are modelled as atoms. -/
structure Callback where
  id : Nat
deriving DecidableEq, Repr

/-- Answer to an event notification (src/event.rs `EventResult`). -/
inductive EventResult where
  | Ignored
  | Consumed (cb : Option Callback)
deriving DecidableEq, Repr

/-- Modelled from the spec: src/direction.rs is not provided. The
direction focus enters from, or `none` for programmatic requests. -/
inductive Direction where
  | none
  | left
  | right
  | up
  | down
  | front
  | back
deriving DecidableEq, Repr

/-- Shallow embedding of a boxed `View` trait object with state type
`σ`: the current state plus one transition function per trait method
used by the compositor and decoration wrappers (each takes
`&mut self` in the source, hence the threaded state). -/
structure ViewM (σ : Type) where
  st : σ
  on_event : σ → Event → σ × EventResult
  take_focus : σ → Direction → σ × Bool
  required_size : σ → Vec2 → σ × Vec2
  layout : σ → Vec2 → σ

/-! ### ShadowView, src/views/shadow_view.rs -/

/-- Source `ShadowView` (src/views/shadow_view.rs lines 10-16): the
wrapped view plus the two toggleable paddings. -/
structure ShadowViewM (σ : Type) where
  view : ViewM σ
  top_padding : Bool
  left_padding : Bool

namespace ShadowViewM

/-- Source `ShadowView::new` (src/views/shadow_view.rs lines 20-26):
both paddings default to true. -/
def new (view : ViewM σ) : ShadowViewM σ :=
  { view := view, top_padding := true, left_padding := true }

/-- Source `ShadowView::padding` (src/views/shadow_view.rs lines 31-34):
total padding, one cell of shadow per axis plus one optional cell of
padding (`Vec2::new(1 + left, 1 + top)`). -/
def padding (s : ShadowViewM σ) : Vec2 :=
  Vec2.new (1 + (if s.left_padding then 1 else 0))
    (1 + (if s.top_padding then 1 else 0))

/-- Source `ShadowView::wrap_required_size` (src/views/shadow_view.rs
lines 56-60): clamp the padding to the constraint, offer the child the
remainder, and add the clamped padding back to its answer. -/
def wrap_required_size (s : ShadowViewM σ) (req : Vec2) :
    ShadowViewM σ × Vec2 :=
  let offset := s.padding.or_min req
  let (st, child) := s.view.required_size s.view.st (req - offset)
  ({ s with view := { s.view with st := st } }, child + offset)

/-- Source `ShadowView::wrap_layout` (src/views/shadow_view.rs lines
62-65). -/
def wrap_layout (s : ShadowViewM σ) (size : Vec2) : ShadowViewM σ :=
  let offset := s.padding.or_min size
  { s with view := { s.view with st := s.view.layout s.view.st (size - offset) } }

/-- Source `ShadowView::wrap_on_event` (src/views/shadow_view.rs lines
67-71): relativize by the fixed offset `(1, 1)` with no size bound and
forward, answering `Ignored` when relativization rejects the event. -/
def wrap_on_event (s : ShadowViewM σ) (event : Event) :
    ShadowViewM σ × EventResult :=
  match event.make_relative (Vec2.new 1 1) none with
  | none => (s, .Ignored)
  | some ev =>
    let (st, r) := s.view.on_event s.view.st ev
    ({ s with view := { s.view with st := st } }, r)

end ShadowViewM

/-! ### StackView, src/views/stack_view.rs -/

/-- Modelled from the spec: `Position` (view/position.rs is not
provided). A placement policy resolves to an absolute top-left offset
given the child's size, the available surface size, and the offset of
the previously placed layer; it is kept fully abstract as that
resolution function. -/
structure PositionM where
  compute_offset : Vec2 → Vec2 → Vec2 → Vec2

/-- Source `Placement` (src/views/stack_view.rs lines 19-22). -/
inductive Placement where
  | Floating (pos : PositionM)
  | Fullscreen

/-- Source `Placement::compute_offset` (src/views/stack_view.rs lines
25-37): floating layers defer to their position policy, fullscreen
layers resolve to the origin. -/
def Placement.compute_offset (p : Placement)
    (size available parent : Vec2) : Vec2 :=
  match p with
  | .Floating pos => pos.compute_offset size available parent
  | .Fullscreen => Vec2.zero

/-- Source `Child` (src/views/stack_view.rs lines 40-51): one compositor
layer. `Layer::new` / `ShadowView` wrapping of the user view happens
before the `view` field is built (views/layer.rs is not provided), so
`view` here is the already wrapped boxed view. -/
structure Child (σ : Type) where
  view : ViewM σ
  size : Vec2
  position : Vec2
  placement : Placement
  virgin : Bool

/-- Source `StackView` (src/views/stack_view.rs lines 14-17). -/
structure StackViewM (σ : Type) where
  layers : List (Child σ)
  last_size : Vec2

namespace StackViewM

/-- Source `StackView::new` (src/views/stack_view.rs lines 57-62). -/
def new : StackViewM σ := { layers := [], last_size := Vec2.zero }

/-- Source `StackView::add_fullscreen_layer` (src/views/stack_view.rs
lines 67-78): push a fullscreen child with `virgin = true`. -/
def add_fullscreen_layer (s : StackViewM σ) (view : ViewM σ) :
    StackViewM σ :=
  { s with
      layers := s.layers ++
        [{ view := view, size := Vec2.zero, position := Vec2.zero,
           placement := .Fullscreen, virgin := true }] }

/-- Source `StackView::add_layer_at` (src/views/stack_view.rs lines
106-122): push a floating child with `virgin = true` (here `view` is
the already `ShadowView`/`Layer`-wrapped view). -/
def add_layer_at (s : StackViewM σ) (position : PositionM)
    (view : ViewM σ) : StackViewM σ :=
  { s with
      layers := s.layers ++
        [{ view := view, size := Vec2.zero, position := Vec2.zero,
           placement := .Floating position, virgin := true }] }

/-- Source `StackView::pop_layer` (src/views/stack_view.rs lines
134-136): remove the top-most layer. -/
def pop_layer (s : StackViewM σ) : StackViewM σ :=
  { s with layers := s.layers.dropLast }

/-- Source `StackView::on_event` (src/views/stack_view.rs lines
175-190): relativize to the last layer's rectangle and forward to it;
an empty stack or a rejected (out-of-rectangle) event is `Ignored`. -/
def on_event (s : StackViewM σ) (event : Event) :
    StackViewM σ × EventResult :=
  match s.layers.getLast? with
  | Option.none => (s, .Ignored)
  | some v =>
    match event.make_relative v.position (some v.size) with
    | Option.none => (s, .Ignored)
    | some ev =>
      let p := v.view.on_event v.view.st ev
      ({ s with
          layers := s.layers.dropLast ++
            [{ v with view := { v.view with st := p.1 } }] }, p.2)

/-- Source `StackView::take_focus` (src/views/stack_view.rs lines
232-237): delegate to the last layer; an empty stack refuses focus. -/
def take_focus (s : StackViewM σ) (source : Direction) :
    StackViewM σ × Bool :=
  match s.layers.getLast? with
  | Option.none => (s, false)
  | some v =>
    let p := v.view.take_focus v.view.st source
    ({ s with
        layers := s.layers.dropLast ++
          [{ v with view := { v.view with st := p.1 } }] }, p.2)

/-- Source loop body of `StackView::layout` (src/views/stack_view.rs
lines 192-221) over the list of layers, threading the previous offset
and the absolute index; alongside the updated layers it returns the
indices on which `take_focus` was invoked (the virgin layers). -/
def layoutLayers (size : Vec2) :
    List (Child σ) → Vec2 → Nat → List (Child σ) × List Nat
  | [], _, _ => ([], [])
  | layer :: rest, previous, idx =>
    let p1 := layer.view.required_size layer.view.st size
    let lsize := Vec2.min size p1.2
    let st2 := layer.view.layout p1.1 lsize
    let offset := layer.placement.compute_offset lsize size previous
    let st3 :=
      if layer.virgin then (layer.view.take_focus st2 Direction.none).1
      else st2
    let att : List Nat := if layer.virgin then [idx] else []
    let layer' := { layer with
      view := { layer.view with st := st3 },
      size := lsize, position := offset,
      -- the source clears the flag only inside `if layer.virgin`,
      -- which leaves `false` alone, so the net value is `false`
      virgin := false }
    let r := layoutLayers size rest offset (idx + 1)
    (layer' :: r.1, att ++ r.2)

/-- Source `StackView::layout` (src/views/stack_view.rs lines 192-221):
record the surface size and lay out every layer in order; the second
component lists the indices of the layers that received their one-time
post-layout focus attempt. -/
def layout (s : StackViewM σ) (size : Vec2) : StackViewM σ × List Nat :=
  let (layers, att) := layoutLayers size s.layers Vec2.zero 0
  ({ layers := layers, last_size := size }, att)

/-- Source `StackView::required_size` (src/views/stack_view.rs lines
223-230): the max of all children's, at least `(1, 1)`. -/
def required_size (s : StackViewM σ) (size : Vec2) :
    StackViewM σ × Vec2 :=
  let (layers, acc) :=
    s.layers.foldr
      (fun layer (p : List (Child σ) × List Vec2) =>
        let (st, r) := layer.view.required_size layer.view.st size
        ({ layer with view := { layer.view with st := st } } :: p.1,
         r :: p.2))
      ([], [])
  ({ s with layers := layers }, acc.foldl Vec2.max (Vec2.new 1 1))

end StackViewM

/-! ### Auxiliary definitions used only to state the theorems -/

/-- Modifier-plus-key events: true exactly for the
`Alt`/`Shift`/`AltShift`/`Ctrl`/`CtrlShift`/`CtrlAlt` constructors
applied to a key (the shapes the extension-code table may produce). -/
def Event.isModKey : Event → Bool
  | .Alt _ => true
  | .Shift _ => true
  | .AltShift _ => true
  | .Ctrl _ => true
  | .CtrlShift _ => true
  | .CtrlAlt _ => true
  | _ => false

/-- The base code of each key's extension block in the 519-570 range,
per the reference's offset table: within a block, offsets 0-4 are the
Alt, Alt-Shift, Ctrl, Ctrl-Shift and Ctrl-Alt combinations. -/
def NC.extBases : List (Int × Key) :=
  [(519, .Del), (525, .Down), (530, .End), (535, .Home), (540, .Ins),
   (545, .Left), (550, .PageDown), (555, .PageUp), (560, .Right),
   (566, .Up)]

/-- The extension-code table as the spec (section 6) describes it:
Alt / Alt-Shift / Ctrl / Ctrl-Shift / Ctrl-Alt combinations of
Del/Down/End/Home/Ins/Left/PageDown/PageUp/Right/Up at fixed offsets
from each key's base code; `none` off the blocks. -/
def NC.specExtTable (c : Int) : Option Event :=
  NC.extBases.findSome? fun bk =>
    if bk.1 ≤ c ∧ c < bk.1 + 5 then
      some (if c = bk.1 then .Alt bk.2
        else if c = bk.1 + 1 then .AltShift bk.2
        else if c = bk.1 + 2 then .Ctrl bk.2
        else if c = bk.1 + 3 then .CtrlShift bk.2
        else .CtrlAlt bk.2)
    else none

/-- The nine "clicked" button states of the raw mouse interface (single,
double and triple clicks of the three buttons) with their button. -/
def NC.clicked_button (bstate : Nat) : Option MouseButton :=
  if bstate = NC.BUTTON1_CLICKED ∨ bstate = NC.BUTTON1_DOUBLE_CLICKED ∨
      bstate = NC.BUTTON1_TRIPLE_CLICKED then some .Left
  else if bstate = NC.BUTTON2_CLICKED ∨ bstate = NC.BUTTON2_DOUBLE_CLICKED ∨
      bstate = NC.BUTTON2_TRIPLE_CLICKED then some .Middle
  else if bstate = NC.BUTTON3_CLICKED ∨ bstate = NC.BUTTON3_DOUBLE_CLICKED ∨
      bstate = NC.BUTTON3_TRIPLE_CLICKED then some .Right
  else none

/-- A concrete child view over state `List Event` that records every
event it is handed; used to observe what a wrapper forwards. -/
def recView : ViewM (List Event) where
  st := []
  on_event := fun st e => (st ++ [e], .Ignored)
  take_focus := fun st _ => (st, true)
  required_size := fun st v => (st, v)
  layout := fun st _ => st

/-- A concrete fullscreen compositor layer over the recording view,
occupying the rectangle from `(5, 5)` of size `(2, 2)`, still virgin. -/
def testChild : Child (List Event) where
  view := recView
  size := ⟨2, 2⟩
  position := ⟨5, 5⟩
  placement := .Fullscreen
  virgin := true

/-- The same concrete layer with its virgin flag already cleared. -/
def testChildNV : Child (List Event) :=
  { testChild with virgin := false }

/-- A concrete two-layer stack: a virgin layer below a non-virgin one. -/
def testStack : StackViewM (List Event) where
  layers := [testChild, testChildNV]
  last_size := ⟨0, 0⟩

/-! ### Theorems -/

/-- C1. The claim quantifies over all seven modifier variants of mouse
events; the source's `mouse_position` match omits `AltShiftMouse`, so
`make_relative` treats an `AltShiftMouse` event as a non-mouse event:
at position `(0, 0)` with top-left `(1, 1)` it returns `Some` with the
position unchanged, where the claim requires `None`
(`0 < 1` on both axes). Evaluation of the code at the failing input. -/
theorem C1_make_relative_altshiftmouse_bug :
    Event.make_relative (.AltShiftMouse ⟨0, 0⟩ (.Press .Left)) ⟨1, 1⟩
        Option.none =
      some (.AltShiftMouse ⟨0, 0⟩ (.Press .Left)) ∧
    Event.mouse_position (.AltShiftMouse ⟨0, 0⟩ (.Press .Left)) =
      Option.none := by
  exact ⟨rfl, rfl⟩

/-- C4. The claim says both drivers disable the periodic refresh
timeout on `set_refresh_rate(0)`. The ncurses driver does (it passes
`-1` to `ncurses::timeout`), but the termion driver unconditionally
stores `Some(1000 / fps)`: at `fps = 0` the u32 division by zero panics
(embedded as `none`) and the timeout field is never reset to `None`.
Evaluation of both drivers at the failing input `fps = 0`. -/
theorem C4_set_refresh_rate_zero :
    Termion.set_refresh_rate 0 = Option.none ∧
    Termion.set_refresh_rate 30 = some (some 33) ∧
    NC.set_refresh_rate 0 = -1 ∧
    NC.set_refresh_rate 30 = 33 := by
  exact ⟨rfl, rfl, rfl, rfl⟩

/-- C9. The claim says every function key F1-F12 maps to the canonical
`Key::F*` event. The guard on the function-key arm of `map_key` is
`i < 12`, so `F(12)` falls to the next arm and becomes
`Unknown([12])` instead of `Key(F12)`; F1-F11 and the `Ctrl-'c' → Exit`
exception behave as documented. Evaluation at the failing input. -/
theorem C9_map_key_f12_bug :
    Termion.map_key (.Key (.F 12)) = some (.Unknown [12]) ∧
    Termion.map_key (.Key (.F 11)) = some (.Key .F11) ∧
    Termion.map_key (.Key (.F 1)) = some (.Key .F1) ∧
    Termion.map_key (.Key (.Ctrl 'c')) = some .Exit ∧
    Termion.map_key (.Key (.Ctrl 'd')) = some (.CtrlChar 'd') := by
  exact ⟨rfl, rfl, rfl, rfl, rfl⟩

/-- C10. The claim says every mouse event with position `(x, y)`
reaches the child at `(x - 1, y - 1)` iff `x ≥ 1 ∧ y ≥ 1` and is
otherwise `Ignored`. Because `mouse_position` omits `AltShiftMouse`,
`ShadowView::wrap_on_event` forwards an `AltShiftMouse` event to the
child with its position unchanged — even at `(0, 0)`, which the claim
requires to be rejected. The recording child view observes both
forwarded events verbatim. -/
theorem C10_wrap_on_event_altshiftmouse_bug :
    ((ShadowViewM.new recView).wrap_on_event
        (.AltShiftMouse ⟨3, 4⟩ .WheelDown)).1.view.st =
      [.AltShiftMouse ⟨3, 4⟩ .WheelDown] ∧
    ((ShadowViewM.new recView).wrap_on_event
        (.AltShiftMouse ⟨0, 0⟩ .WheelDown)).1.view.st =
      [.AltShiftMouse ⟨0, 0⟩ .WheelDown] ∧
    ((ShadowViewM.new recView).wrap_on_event
        (.Mouse ⟨0, 0⟩ .WheelDown)).1.view.st = [] := by
  exact ⟨rfl, rfl, rfl⟩

/-- C7. With both paddings enabled the reserved offset is exactly
`(2, 2)`; for every constraint `req`, `wrap_required_size` clamps the
offset componentwise to `req`, offers the child the (zero-or-more)
remainder `req - offset`, and returns the child's answer plus the
clamped offset. -/
theorem C7_shadow_required_size (σ : Type) (s : ShadowViewM σ)
    (htop : s.top_padding = true) (hleft : s.left_padding = true) :
    s.padding = Vec2.new 2 2 ∧
    ∀ req : Vec2,
      (s.wrap_required_size req).2 =
        (s.view.required_size s.view.st
            (req - Vec2.new (Nat.min 2 req.x) (Nat.min 2 req.y))).2 +
          Vec2.new (Nat.min 2 req.x) (Nat.min 2 req.y) := by
  have hp : s.padding = Vec2.new 2 2 := by
    simp [ShadowViewM.padding, htop, hleft]
  refine ⟨hp, fun req => ?_⟩
  simp [ShadowViewM.wrap_required_size, hp, Vec2.or_min, Vec2.min, Vec2.new]

/-- Witness for C7 at a concrete shadow view: the identity-sized child
under constraint `(5, 7)` is offered `(3, 5)` and the wrapper reports
`(5, 7)`; under constraint `(1, 0)` the offset clamps to `(1, 0)`. -/
theorem C7_shadow_required_size_witness :
    ((ShadowViewM.new recView).wrap_required_size ⟨5, 7⟩).2 = ⟨5, 7⟩ ∧
    ((ShadowViewM.new recView).wrap_required_size ⟨1, 0⟩).2 = ⟨1, 0⟩ := by
  have h := C7_shadow_required_size (List Event) (ShadowViewM.new recView)
    rfl rfl
  exact ⟨(h.2 ⟨5, 7⟩).trans rfl, (h.2 ⟨1, 0⟩).trans rfl⟩

/-- C8 counterexample. The claim says every code in 1-25 outside
{8, 9, 10} becomes the corresponding `CtrlChar` and that 8-10 are not
translated as Ctrl+letter. At code 13 the earlier `10 | 13 | KEY_ENTER`
arm yields `Key(Enter)`, not `CtrlChar('m')`; and code 8 is caught by
no earlier arm, so it does become `CtrlChar('h')`. -/
theorem C8_ctrlchar_counterexample :
    NC.parse_ncurses_key 13 = some (.Key .Enter) ∧
    (Event.Key .Enter) ≠ (Event.CtrlChar 'm') ∧
    NC.parse_ncurses_key 8 = some (.CtrlChar 'h') := by
  refine ⟨by decide, by decide, by decide⟩

/-- C8 as amended: every code `c` with `1 ≤ c ≤ 25` and
`c ∉ {9, 10, 13}` translates to `CtrlChar` of the `c`-th lowercase
letter (code 8 included, giving Ctrl-'h'); the shadowed codes 9, 10
and 13 translate to Tab, Enter and Enter instead. -/
theorem C8_ctrlchar_range :
    (∀ n : Fin 26, 1 ≤ n.1 → n.1 ≠ 9 → n.1 ≠ 10 → n.1 ≠ 13 →
      NC.parse_ncurses_key (n.1 : Int) =
        some (.CtrlChar (Char.ofNat (96 + n.1)))) ∧
    NC.parse_ncurses_key 9 = some (.Key .Tab) ∧
    NC.parse_ncurses_key 10 = some (.Key .Enter) ∧
    NC.parse_ncurses_key 13 = some (.Key .Enter) := by
  refine ⟨by decide, by decide, by decide, by decide⟩

/-- C2 counterexample. The claim covers every code `c` with
`519 ≤ c ≤ 570`, but the reference table has gaps: 523 (and likewise
524, 541, 543, 565) has no arm and falls through to
`Unknown(little-endian bytes)`, which is no modifier+key combination. -/
theorem C2_extension_counterexample :
    NC.parse_ncurses_key 523 = some (.Unknown [11, 2, 0, 0]) ∧
    Event.isModKey ((NC.parse_ncurses_key 523).getD .Exit) = false := by
  refine ⟨by decide, by decide⟩

/-- C2 as amended: every code in 519-570 except the five unmapped gaps
{523, 524, 541, 543, 565} translates to the Alt / Alt-Shift / Ctrl /
Ctrl-Shift / Ctrl-Alt combination given by the fixed offset table
(`specExtTable`, blocks based at Del 519, Down 525, End 530, Home 535,
Ins 540, Left 545, PageDown 550, PageUp 555, Right 560, Up 566), and
the four 12-wide ranges translate to Shift-F*, Ctrl-F*, Ctrl-Shift-F*
and Alt-F* respectively. Determinism is inherent: the translation is
embedded as a pure function of the code. -/
theorem C2_extension_table :
    (∀ n : Fin 52, n.1 ≠ 4 → n.1 ≠ 5 → n.1 ≠ 22 → n.1 ≠ 24 → n.1 ≠ 46 →
      NC.parse_ncurses_key (519 + (n.1 : Int)) =
        NC.specExtTable (519 + (n.1 : Int))) ∧
    (∀ i : Fin 12,
      NC.parse_ncurses_key (277 + (i.1 : Int)) =
          (Key.from_f (i.1 + 1)).map Event.Shift ∧
        NC.parse_ncurses_key (289 + (i.1 : Int)) =
          (Key.from_f (i.1 + 1)).map Event.Ctrl ∧
        NC.parse_ncurses_key (301 + (i.1 : Int)) =
          (Key.from_f (i.1 + 1)).map Event.CtrlShift ∧
        NC.parse_ncurses_key (313 + (i.1 : Int)) =
          (Key.from_f (i.1 + 1)).map Event.Alt) := by
  refine ⟨by decide, by decide⟩

/-- Witness for C2 at concrete codes: 519 is Alt-Del per the offset
table and 289 is Ctrl-F1. -/
theorem C2_extension_table_witness :
    NC.parse_ncurses_key 519 = NC.specExtTable 519 ∧
    NC.specExtTable 519 = some (.Alt .Del) ∧
    NC.parse_ncurses_key 289 = (Key.from_f 1).map Event.Ctrl := by
  refine ⟨C2_extension_table.1 ⟨0, by decide⟩ (by decide) (by decide)
      (by decide) (by decide) (by decide), by decide,
    (C2_extension_table.2 ⟨0, by decide⟩).2.1⟩

/-- C3. The polling driver's queue discipline: (a) whenever the
synthesized-event FIFO is non-empty, `poll_event` returns its front and
never consults the raw driver (the result is the same for every raw
code, mouse report and utf8 reader); (b) a raw mouse report whose
button state is one of the nine clicked / double-clicked /
triple-clicked signals makes the current poll return the `Press` for
that button while appending the matching `Release` to the queue, and
the next poll returns exactly that `Release`, again for every raw
driver input. -/
theorem C3_click_press_release_fifo :
    (∀ (e : Event) (rest : List Event) (ch : Int) (m : NC.RawMouse)
        (rc : Int → Option Char),
      NC.poll_event (e :: rest) ch m rc = some (rest, e)) ∧
    (∀ (x y bst : Nat) (b : MouseButton) (rc : Int → Option Char),
      NC.clicked_button bst = some b →
        NC.poll_event [] 409 ⟨x, y, bst⟩ rc =
          some ([.Mouse ⟨x, y⟩ (.Release b)],
            .Mouse ⟨x, y⟩ (.Press b)) ∧
        ∀ (ch' : Int) (m' : NC.RawMouse) (rc' : Int → Option Char),
          NC.poll_event [.Mouse ⟨x, y⟩ (.Release b)] ch' m' rc' =
            some ([], .Mouse ⟨x, y⟩ (.Release b))) := by
  constructor
  · intro e rest ch m rc
    rfl
  · intro x y bst b rc h
    unfold NC.clicked_button at h
    split_ifs at h with h1 h2 h3
    · injection h with hb
      subst hb
      rcases h1 with h1 | h1 | h1 <;> subst h1 <;>
        exact ⟨by simp only [NC.poll_event, NC.parse_ncurses_char]; rfl,
          fun ch' m' rc' => rfl⟩
    · injection h with hb
      subst hb
      rcases h2 with h2 | h2 | h2 <;> subst h2 <;>
        exact ⟨by simp only [NC.poll_event, NC.parse_ncurses_char]; rfl,
          fun ch' m' rc' => rfl⟩
    · injection h with hb
      subst hb
      rcases h3 with h3 | h3 | h3 <;> subst h3 <;>
        exact ⟨by simp only [NC.poll_event, NC.parse_ncurses_char]; rfl,
          fun ch' m' rc' => rfl⟩

/-- Witness for C3: a single left click at `(2, 3)` yields the press
with the release queued, and the following poll (with a different raw
code pending) yields that release. -/
theorem C3_click_press_release_fifo_witness :
    NC.poll_event [] 409 ⟨2, 3, 4⟩ (fun _ => Option.none) =
      some ([.Mouse ⟨2, 3⟩ (.Release .Left)],
        .Mouse ⟨2, 3⟩ (.Press .Left)) ∧
    NC.poll_event [.Mouse ⟨2, 3⟩ (.Release .Left)] 65 ⟨0, 0, 0⟩
        (fun _ => some 'A') =
      some ([], .Mouse ⟨2, 3⟩ (.Release .Left)) := by
  refine ⟨(C3_click_press_release_fifo.2 2 3 4 .Left (fun _ => Option.none)
      (by decide)).1,
    (C3_click_press_release_fifo.2 2 3 4 .Left (fun _ => Option.none)
      (by decide)).2 65 ⟨0, 0, 0⟩ (fun _ => some 'A')⟩

/-- C5. Routing in the compositor: an empty stack answers `Ignored` to
every event and refuses focus from every direction; with layers
`l ++ [c]` the result of `on_event` is exactly what the top layer `c`
alone would produce while the lower layers `l` are untouched; a mouse
event outside the top layer's rectangle is answered `Ignored` without
reaching any layer; and `pop_layer` removes exactly the top layer, so
the previous second-from-top layer is the one that receives the next
event. -/
theorem C5_topmost_layer_routing (σ : Type) :
    (∀ (ls : Vec2) (e : Event),
      StackViewM.on_event (⟨[], ls⟩ : StackViewM σ) e =
        (⟨[], ls⟩, .Ignored)) ∧
    (∀ (ls : Vec2) (d : Direction),
      StackViewM.take_focus (⟨[], ls⟩ : StackViewM σ) d =
        (⟨[], ls⟩, false)) ∧
    (∀ (l : List (Child σ)) (c : Child σ) (ls : Vec2),
      StackViewM.pop_layer (⟨l ++ [c], ls⟩ : StackViewM σ) = ⟨l, ls⟩) ∧
    (∀ (l : List (Child σ)) (c : Child σ) (ls : Vec2) (e : Event),
      ((StackViewM.on_event (⟨l ++ [c], ls⟩ : StackViewM σ) e).2 =
          (StackViewM.on_event (⟨[c], ls⟩ : StackViewM σ) e).2 ∧
        (StackViewM.on_event (⟨l ++ [c], ls⟩ : StackViewM σ) e).1.layers =
          l ++ (StackViewM.on_event (⟨[c], ls⟩ : StackViewM σ) e).1.layers) ∧
      (e.make_relative c.position (some c.size) = Option.none →
        StackViewM.on_event (⟨l ++ [c], ls⟩ : StackViewM σ) e =
          (⟨l ++ [c], ls⟩, .Ignored))) := by
  refine ⟨fun ls e => rfl, fun ls d => rfl, ?_, ?_⟩
  · intro l c ls
    simp [StackViewM.pop_layer, List.dropLast_concat]
  · intro l c ls e
    have hgl : (l ++ [c]).getLast? = some c := List.getLast?_concat l
    have hdl : (l ++ [c]).dropLast = l := List.dropLast_concat
    refine ⟨?_, ?_⟩
    · cases hmr : e.make_relative c.position (some c.size) with
      | none =>
        constructor <;>
          simp [StackViewM.on_event, hgl, hdl, hmr]
      | some ev =>
        constructor <;>
          simp [StackViewM.on_event, hgl, hdl, hmr]
    · intro hmr
      simp [StackViewM.on_event, hgl, hdl, hmr]

/-- Witness for C5: in a concrete two-layer stack a mouse event at
`(0, 0)`, outside the top layer's rectangle anchored at `(5, 5)`, is
ignored and changes nothing; the empty stack refuses focus. -/
theorem C5_topmost_layer_routing_witness :
    StackViewM.on_event
        (⟨[testChild] ++ [testChild], ⟨10, 10⟩⟩ : StackViewM (List Event))
        (Event.Mouse ⟨0, 0⟩ .WheelUp) =
      (⟨[testChild] ++ [testChild], ⟨10, 10⟩⟩, .Ignored) ∧
    StackViewM.take_focus (⟨[], ⟨10, 10⟩⟩ : StackViewM (List Event))
        Direction.none =
      (⟨[], ⟨10, 10⟩⟩, false) :=
  ⟨((C5_topmost_layer_routing (List Event)).2.2.2 [testChild] testChild
      ⟨10, 10⟩ (Event.Mouse ⟨0, 0⟩ .WheelUp)).2 rfl,
    (C5_topmost_layer_routing (List Event)).2.1 ⟨10, 10⟩ Direction.none⟩

/-- Shared helper for C6: one pass of the layout loop over a list of
layers, starting at absolute index `idx` with previous offset `prev`,
preserves the layer count, leaves every processed layer with
`virgin = false`, attempts focus exactly on the layers that entered the
pass with `virgin = true` (indices recorded in order, each at least
`idx`, without duplicates). -/
theorem layoutLayers_spec (σ : Type) (sz : Vec2) (ls : List (Child σ)) :
    ∀ (prev : Vec2) (idx : Nat),
      (StackViewM.layoutLayers sz ls prev idx).1.length = ls.length ∧
      (∀ c ∈ (StackViewM.layoutLayers sz ls prev idx).1,
        c.virgin = false) ∧
      (∀ j : Nat, (idx + j) ∈ (StackViewM.layoutLayers sz ls prev idx).2 ↔
        (ls[j]?.map Child.virgin = some true)) ∧
      (∀ a ∈ (StackViewM.layoutLayers sz ls prev idx).2, idx ≤ a) ∧
      (StackViewM.layoutLayers sz ls prev idx).2.Nodup := by
  induction ls with
  | nil =>
    intro prev idx
    simp [StackViewM.layoutLayers]
  | cons layer rest ih =>
    intro prev idx
    simp only [StackViewM.layoutLayers]
    cases hv : layer.virgin with
    | true =>
      simp only [hv, if_true]
      refine ⟨?_, ?_, ?_, ?_, ?_⟩
      · simpa using (ih _ (idx + 1)).1
      · intro c hc
        rcases List.mem_cons.1 hc with rfl | hc
        · rfl
        · exact (ih _ (idx + 1)).2.1 c hc
      · intro j
        cases j with
        | zero =>
          simp [hv]
        | succ jj =>
          have hne : ¬ (idx + (jj + 1) = idx) := by omega
          have harr : idx + (jj + 1) = (idx + 1) + jj := by omega
          rw [List.singleton_append]
          simp only [List.mem_cons, hne, false_or,
            List.getElem?_cons_succ]
          rw [harr]
          exact (ih _ (idx + 1)).2.2.1 jj
      · intro a ha
        rcases List.mem_cons.1 ha with rfl | ha
        · exact Nat.le_refl _
        · exact Nat.le_of_succ_le ((ih _ (idx + 1)).2.2.2.1 a ha)
      · refine List.nodup_cons.2 ⟨fun hmem => ?_, (ih _ (idx + 1)).2.2.2.2⟩
        have := (ih _ (idx + 1)).2.2.2.1 idx hmem
        omega
    | false =>
      simp only [hv, Bool.false_eq_true, if_false, List.nil_append]
      refine ⟨?_, ?_, ?_, ?_, ?_⟩
      · simpa using (ih _ (idx + 1)).1
      · intro c hc
        rcases List.mem_cons.1 hc with rfl | hc
        · rfl
        · exact (ih _ (idx + 1)).2.1 c hc
      · intro j
        cases j with
        | zero =>
          constructor
          · intro hmem
            have := (ih _ (idx + 1)).2.2.2.1 _ hmem
            omega
          · intro hsome
            simp [hv] at hsome
        | succ jj =>
          have harr : idx + (jj + 1) = (idx + 1) + jj := by omega
          simp only [harr, List.getElem?_cons_succ]
          exact (ih _ (idx + 1)).2.2.1 jj
      · intro a ha
        exact Nat.le_of_succ_le ((ih _ (idx + 1)).2.2.2.1 a ha)
      · exact (ih _ (idx + 1)).2.2.2.2

/-- C6. A layer is added with `virgin = true` (both `add` flavours);
`StackView::layout` leaves every layer with `virgin = false` and
attempts `take_focus` exactly on the layers whose flag was still true
when the pass reached them — each exactly once (no duplicate indices) —
so a second layout pass attempts no focus at all: the true-to-false
transition happens exactly once, during the first layout that processes
the layer. -/
theorem C6_virgin_transition (σ : Type) (s : StackViewM σ) (sz : Vec2) :
    ((s.layout sz).1.layers.length = s.layers.length) ∧
    (∀ c ∈ (s.layout sz).1.layers, c.virgin = false) ∧
    (∀ i : Nat, i ∈ (s.layout sz).2 ↔
      (s.layers[i]?.map Child.virgin = some true)) ∧
    ((s.layout sz).2.Nodup) ∧
    (∀ sz2 : Vec2, (((s.layout sz).1).layout sz2).2 = []) ∧
    (∀ v : ViewM σ,
      ((s.add_fullscreen_layer v).layers.getLast?.map Child.virgin) =
        some true) ∧
    (∀ (p : PositionM) (v : ViewM σ),
      ((s.add_layer_at p v).layers.getLast?.map Child.virgin) =
        some true) := by
  have H := layoutLayers_spec σ sz s.layers Vec2.zero 0
  refine ⟨H.1, H.2.1, ?_, H.2.2.2.2, ?_, ?_, ?_⟩
  · intro i
    simpa using H.2.2.1 i
  · intro sz2
    have H2 := layoutLayers_spec σ sz2 (s.layout sz).1.layers Vec2.zero 0
    refine List.eq_nil_iff_forall_not_mem.2 fun a hmem => ?_
    have := (H2.2.2.1 a).mp (by simpa using hmem)
    cases hget : (s.layout sz).1.layers[a]? with
    | none => simp [hget] at this
    | some c =>
      have hcv : c.virgin = false :=
        H.2.1 c (List.getElem?_mem hget)
      simp [hget, hcv] at this
  · intro v
    simp [StackViewM.add_fullscreen_layer, List.getLast?_concat]
  · intro p v
    simp [StackViewM.add_layer_at, List.getLast?_concat]

/-- Witness for C6 on a concrete two-layer stack whose bottom layer is
virgin and whose top layer is not: the layout pass attempts focus on
layer 0 and not on layer 1. -/
theorem C6_virgin_transition_witness :
    (0 ∈ (testStack.layout ⟨4, 4⟩).2) ∧
    ¬ (1 ∈ (testStack.layout ⟨4, 4⟩).2) :=
  ⟨(C6_virgin_transition (List Event) testStack ⟨4, 4⟩).2.2.1 0 |>.mpr rfl,
    fun h => by
      have := (C6_virgin_transition (List Event) testStack ⟨4, 4⟩).2.2.1 1
        |>.mp h
      simp [testStack, testChildNV, testChild] at this⟩

/-- Witness for C8 at the concrete codes 1 and 8: Ctrl-'a' and
Ctrl-'h'. -/
theorem C8_ctrlchar_range_witness :
    NC.parse_ncurses_key 1 = some (.CtrlChar 'a') ∧
    NC.parse_ncurses_key 8 = some (.CtrlChar 'h') := by
  exact ⟨C8_ctrlchar_range.1 ⟨1, by decide⟩ (by decide) (by decide)
      (by decide) (by decide),
    C8_ctrlchar_range.1 ⟨8, by decide⟩ (by decide) (by decide)
      (by decide) (by decide)⟩

end Cursive
